import Mathlib

/-!
Shallow embedding of the papermind repository's two core modules:

* `src/papermind/claude/client.py` — the `ClaudeClient` wrapper around the
  external analysis endpoint (`analyze_paper`, `_call_with_retry`, usage
  counters).
* `src/papermind/zotero/database.py` — the `ZoteroDatabase` access layer
  (`retry_on_lock`, `list_items`, `get_item`, `get_notes`, `search_items`,
  `add_note`).

The endpoint and the clock/hash environment are modelled as explicit
parameters; machine-level effects (the actual network call, `time.sleep`,
`datetime.now()`, `hashlib.md5`) appear as inputs, and each embedded
operation additionally reports how many endpoint invocations it made and
which blocking delays it performed.
-/

namespace Papermind

/-! ### Claude client: failure classification (client.py lines 153-179)

The Python code distinguishes, via `except` clauses, the exception types
`RateLimitError`, `APIConnectionError`, `APIError` (whose optional
`status_code` attribute is inspected), and any other exception (which is
not caught by `_call_with_retry` at all and so propagates at once). -/

inductive ApiFailure where
  | rateLimitError : ApiFailure
  | apiConnectionError : ApiFailure
  | apiError (statusCode : Option Nat) : ApiFailure
  | otherException : ApiFailure
deriving DecidableEq

/-- A successful endpoint response, as consumed by `analyze_paper`:
`response.content` is a list of blocks, each of which may or may not carry a
`text` attribute (modelled as `Option String`). -/
structure ApiResponse where
  content : List (Option String)
  model : String
  inputTokens : Nat
  outputTokens : Nat
  stopReason : String
deriving DecidableEq

/-- Whether `_call_with_retry` treats a failure as retryable.
`RateLimitError` and `APIConnectionError` always are; an `APIError` is
fatal exactly when it carries a `status_code` in `[400, 500)`
(`hasattr(e, 'status_code') and 400 <= e.status_code < 500`); any exception
outside those classes is not caught, hence not retryable. -/
def isRetryableFailure : ApiFailure → Bool
  | .rateLimitError => true
  | .apiConnectionError => true
  | .apiError (some c) => if 400 ≤ c ∧ c < 500 then false else true
  | .apiError none => true
  | .otherException => false

instance {ε α : Type} [DecidableEq ε] [DecidableEq α] : DecidableEq (Except ε α) :=
  fun x y =>
    match x, y with
    | .ok a, .ok b =>
        if h : a = b then .isTrue (congrArg _ h)
        else .isFalse (fun hh => h (Except.ok.inj hh))
    | .ok _, .error _ => .isFalse (fun hh => Except.noConfusion hh)
    | .error _, .ok _ => .isFalse (fun hh => Except.noConfusion hh)
    | .error a, .error b =>
        if h : a = b then .isTrue (congrArg _ h)
        else .isFalse (fun hh => h (Except.error.inj hh))

/-- Observable outcome of `_call_with_retry`: the returned response or the
exception that escaped, the number of endpoint invocations made, and the
sequence of blocking `time.sleep` durations in order. -/
structure RetryResult (α : Type) where
  outcome : Except ApiFailure α
  calls : Nat
  delays : List ℚ
deriving DecidableEq

/-- Loop body of `_call_with_retry` (client.py lines 138-182).  `fuel` is
the number of loop iterations left (`range(self.max_retries)` runs
`maxRetries` iterations), `attempt` the current 0-based index, `lastError`
the Python `last_error` variable, and `acc` the reversed list of delays
slept so far.  A failed attempt with index `attempt < maxRetries - 1`
sleeps `retry_delay * 2 ** attempt` and continues; otherwise the exception
is re-raised.  The `fuel = 0` case mirrors the post-loop
`raise last_error` (reachable only when `maxRetries = 0`, where Python
would raise the `None` placeholder — modelled as `otherException`). -/
def callWithRetryGo (endpoint : Nat → Except ApiFailure ApiResponse)
    (maxRetries : Nat) (retryDelay : ℚ) :
    Nat → Nat → Option ApiFailure → List ℚ → RetryResult ApiResponse
  | 0, attempt, lastError, acc =>
      ⟨.error (lastError.getD .otherException), attempt, acc.reverse⟩
  | fuel + 1, attempt, _lastError, acc =>
      match endpoint attempt with
      | .ok r => ⟨.ok r, attempt + 1, acc.reverse⟩
      | .error e =>
          if isRetryableFailure e then
            if attempt < maxRetries - 1 then
              callWithRetryGo endpoint maxRetries retryDelay fuel (attempt + 1)
                (some e) (retryDelay * 2 ^ attempt :: acc)
            else ⟨.error e, attempt + 1, acc.reverse⟩
          else ⟨.error e, attempt + 1, acc.reverse⟩

/-- `ClaudeClient._call_with_retry`: the endpoint is abstracted as a function
from the 0-based attempt index to that attempt's outcome (the request payload
is identical on every attempt, so it is absorbed into `endpoint`). -/
def callWithRetry (endpoint : Nat → Except ApiFailure ApiResponse)
    (maxRetries : Nat) (retryDelay : ℚ) : RetryResult ApiResponse :=
  callWithRetryGo endpoint maxRetries retryDelay maxRetries 0 none []

/-- The three usage counters owned by one `ClaudeClient` instance. -/
structure UsageStats where
  totalInputTokens : Nat
  totalOutputTokens : Nat
  totalRequests : Nat
deriving DecidableEq

/-- Errors observable from `analyze_paper`: the `ValueError` on empty paper
text, or the exception escaping `_call_with_retry`. -/
inductive AnalyzeError where
  | invalidInput : AnalyzeError
  | apiFailure (e : ApiFailure) : AnalyzeError
deriving DecidableEq

/-- The dictionary returned by `analyze_paper`. -/
structure AnalysisOutput where
  analysis : String
  model : String
  inputTokens : Nat
  outputTokens : Nat
  finishReason : String
deriving DecidableEq

/-- Observable outcome of one `analyze_paper` call: result or error, the
usage counters afterwards, endpoint invocation count, and delays. -/
structure AnalyzeResult where
  outcome : Except AnalyzeError AnalysisOutput
  usage : UsageStats
  calls : Nat
  delays : List ℚ

/-- Concatenation of the `text` attributes of the response's content blocks,
in order, skipping blocks without one (client.py lines 109-113). -/
def extractText (content : List (Option String)) : String :=
  content.foldl (fun acc b => match b with | some t => acc ++ t | none => acc) ""

/-- Leading-whitespace removal on a character list. -/
def dropLeadingWs : List Char → List Char
  | [] => []
  | c :: cs => if c.isWhitespace then dropLeadingWs cs else c :: cs

/-- Python's `str.strip()`: remove leading and trailing whitespace. -/
def pyStrip (s : String) : String :=
  ⟨(dropLeadingWs (dropLeadingWs s.toList).reverse).reverse⟩

/-- `ClaudeClient.analyze_paper` (client.py lines 61-121).  The prompt
construction is a pure collaborator and is absorbed into `endpoint`; `usage`
is the instance's counters before the call.  Empty-after-strip paper text
raises `ValueError` before any endpoint invocation; on success the counters
are incremented by the response's token counts and the result dictionary is
built; on failure the exception propagates with the counters untouched. -/
def analyzePaper (endpoint : Nat → Except ApiFailure ApiResponse)
    (maxRetries : Nat) (retryDelay : ℚ) (usage : UsageStats)
    (paperText : String) : AnalyzeResult :=
  if pyStrip paperText = "" then
    ⟨.error .invalidInput, usage, 0, []⟩
  else
    let r := callWithRetry endpoint maxRetries retryDelay
    match r.outcome with
    | .error e => ⟨.error (.apiFailure e), usage, r.calls, r.delays⟩
    | .ok resp =>
        ⟨.ok ⟨extractText resp.content, resp.model, resp.inputTokens,
              resp.outputTokens, resp.stopReason⟩,
         ⟨usage.totalInputTokens + resp.inputTokens,
          usage.totalOutputTokens + resp.outputTokens,
          usage.totalRequests + 1⟩,
         r.calls, r.delays⟩

/-! ### Generic facts about the client retry loop -/

/-- The delays slept by a run of consecutive failing attempts starting at
0-based attempt index `a` and lasting `k` attempts: the failure of attempt
index `a + i` sleeps `d * 2 ^ (a + i)`. -/
def backoffDelays (d : ℚ) (a k : Nat) : List ℚ :=
  (List.range k).map (fun i => d * 2 ^ (a + i))

theorem backoffDelays_succ (d : ℚ) (a k : Nat) :
    backoffDelays d a (k + 1) = d * 2 ^ a :: backoffDelays d (a + 1) k := by
  unfold backoffDelays
  rw [List.range_succ_eq_map, List.map_cons, List.map_map]
  refine congrArg₂ List.cons (by norm_num) (List.map_congr_left ?_)
  intro i _
  simp only [Function.comp_apply]
  congr 2
  omega

/-- If every attempt before 0-based index `s` fails with a retryable failure
and attempt `s < maxRetries` succeeds, the loop of `_call_with_retry` returns
that response, having made `s + 1` invocations in total and slept once per
failed attempt. -/
theorem callWithRetryGo_success (endpoint : Nat → Except ApiFailure ApiResponse)
    (maxRetries : Nat) (d : ℚ) (s : Nat) (resp : ApiResponse)
    (hs : endpoint s = .ok resp) (hlt : s < maxRetries)
    (hfail : ∀ n, n < s → ∃ e, endpoint n = .error e ∧ isRetryableFailure e = true) :
    ∀ fuel attempt lastError acc, attempt + fuel = maxRetries → attempt ≤ s →
      callWithRetryGo endpoint maxRetries d fuel attempt lastError acc =
        ⟨.ok resp, s + 1, acc.reverse ++ backoffDelays d attempt (s - attempt)⟩ := by
  intro fuel
  induction fuel with
  | zero => intro attempt lastError acc hsum hle; omega
  | succ fuel ih =>
      intro attempt lastError acc hsum hle
      rcases eq_or_lt_of_le hle with heq | hlt2
      · subst heq
        simp [callWithRetryGo, hs, backoffDelays]
      · obtain ⟨e, he, hre⟩ := hfail attempt hlt2
        have hcond : attempt < maxRetries - 1 := by omega
        simp only [callWithRetryGo, he, hre, if_true, if_pos hcond]
        rw [ih (attempt + 1) (some e) (d * 2 ^ attempt :: acc) (by omega) (by omega)]
        have hk : s - attempt = (s - (attempt + 1)) + 1 := by omega
        rw [hk, backoffDelays_succ]
        simp [List.append_assoc]

/-- If every one of the `maxRetries` attempts fails with a retryable failure,
the loop re-raises the failure of the final attempt (0-based index
`maxRetries - 1`) after exactly `maxRetries` invocations, having slept once
per non-final failed attempt. -/
theorem callWithRetryGo_exhaust (endpoint : Nat → Except ApiFailure ApiResponse)
    (maxRetries : Nat) (d : ℚ) (errOf : Nat → ApiFailure)
    (hfail : ∀ n, n < maxRetries →
      endpoint n = .error (errOf n) ∧ isRetryableFailure (errOf n) = true) :
    ∀ fuel attempt lastError acc, attempt + fuel = maxRetries → attempt < maxRetries →
      callWithRetryGo endpoint maxRetries d fuel attempt lastError acc =
        ⟨.error (errOf (maxRetries - 1)), maxRetries,
         acc.reverse ++ backoffDelays d attempt (maxRetries - 1 - attempt)⟩ := by
  intro fuel
  induction fuel with
  | zero => intro attempt lastError acc hsum hle; omega
  | succ fuel ih =>
      intro attempt lastError acc hsum hle
      obtain ⟨he, hre⟩ := hfail attempt hle
      by_cases hcond : attempt < maxRetries - 1
      · simp only [callWithRetryGo, he, hre, if_true, if_pos hcond]
        rw [ih (attempt + 1) (some (errOf attempt)) (d * 2 ^ attempt :: acc)
          (by omega) (by omega)]
        have hk : maxRetries - 1 - attempt = (maxRetries - 1 - (attempt + 1)) + 1 := by
          omega
        rw [hk, backoffDelays_succ]
        simp [List.append_assoc]
      · have hlast : attempt = maxRetries - 1 := by omega
        simp only [callWithRetryGo, he, hre, if_true, if_neg hcond]
        subst hlast
        simp [backoffDelays]
        omega

/-! ### Spec-side taxonomy for the analysis call (refinement side of C4)

The spec (§4.1 item 5, §7) requires the failure escaping after the final
attempt to be wrapped in a distinct `RetriesExhausted` tag; the following
definitions follow the spec's words, to be compared with `callWithRetry`,
which is translated from the source. -/

inductive SpecAnalysisError where
  | fatalRequestError (orig : ApiFailure) : SpecAnalysisError
  | retriesExhausted (orig : ApiFailure) : SpecAnalysisError
deriving DecidableEq

/-- The retry policy exactly as the spec words it: same scheduling as the
code, but a non-retryable failure surfaces as `FatalRequestError` and the
final retryable failure surfaces tagged `RetriesExhausted`, each preserving
the original failure. -/
def specRetryOutcomeGo (endpoint : Nat → Except ApiFailure ApiResponse)
    (maxRetries : Nat) : Nat → Nat → Except SpecAnalysisError ApiResponse
  | 0, _attempt => .error (.retriesExhausted .otherException)
  | fuel + 1, attempt =>
      match endpoint attempt with
      | .ok r => .ok r
      | .error e =>
          if isRetryableFailure e then
            if attempt < maxRetries - 1 then
              specRetryOutcomeGo endpoint maxRetries fuel (attempt + 1)
            else .error (.retriesExhausted e)
          else .error (.fatalRequestError e)

def specRetryOutcome (endpoint : Nat → Except ApiFailure ApiResponse)
    (maxRetries : Nat) : Except SpecAnalysisError ApiResponse :=
  specRetryOutcomeGo endpoint maxRetries maxRetries 0

/-! ### Concrete endpoint behaviours used to instantiate the theorems -/

def respEx : ApiResponse := ⟨[some "ok"], "model-x", 7, 5, "end_turn"⟩

/-- Endpoint that raises a rate-limit failure on attempts 0 and 1 and
succeeds on attempt 2. -/
def epRateLimitTwice : Nat → Except ApiFailure ApiResponse :=
  fun n => if n < 2 then .error .rateLimitError else .ok respEx

/-! ### Claim C1 -/

/-- C1: if each attempt raises a retryable failure until attempt `k ≤
maxRetries` succeeds, the endpoint is invoked exactly `k` times and exactly
`k - 1` blocking delays occur, the `j`-th (0-based, i.e. the one before
1-based attempt `j + 2`) lasting `retryDelay * 2 ^ j`; and if every one of
the `maxRetries` attempts fails with a retryable failure, the endpoint is
invoked exactly `maxRetries` times (the count includes the first attempt). -/
theorem analysis_retry_invocation_and_delay_counts :
    (∀ (endpoint : Nat → Except ApiFailure ApiResponse) (maxRetries k : Nat)
        (d : ℚ) (resp : ApiResponse),
      1 ≤ k → k ≤ maxRetries →
      (∀ n, n + 1 < k → ∃ e, endpoint n = .error e ∧ isRetryableFailure e = true) →
      endpoint (k - 1) = .ok resp →
      (callWithRetry endpoint maxRetries d).outcome = .ok resp ∧
      (callWithRetry endpoint maxRetries d).calls = k ∧
      (callWithRetry endpoint maxRetries d).delays =
        (List.range (k - 1)).map (fun n => d * 2 ^ n)) ∧
    (∀ (endpoint : Nat → Except ApiFailure ApiResponse) (errOf : Nat → ApiFailure)
        (maxRetries : Nat) (d : ℚ),
      1 ≤ maxRetries →
      (∀ n, n < maxRetries →
        endpoint n = .error (errOf n) ∧ isRetryableFailure (errOf n) = true) →
      (callWithRetry endpoint maxRetries d).calls = maxRetries) := by
  constructor
  · intro endpoint maxRetries k d resp hk hle hfail hsucc
    have h := callWithRetryGo_success endpoint maxRetries d (k - 1) resp hsucc
      (by omega) (fun n hn => hfail n (by omega)) maxRetries 0 none [] (by omega)
      (by omega)
    unfold callWithRetry
    rw [h]
    refine ⟨rfl, by simp; omega, ?_⟩
    simp [backoffDelays]
  · intro endpoint errOf maxRetries d hpos hfail
    have h := callWithRetryGo_exhaust endpoint maxRetries d errOf hfail maxRetries 0
      none [] (by omega) (by omega)
    unfold callWithRetry
    rw [h]

/-- Witness for C1 at the spec's own example: rate-limited twice then
success, `maxRetries = 3`, base delay 1: three invocations, two delays of
durations 1 and 2; and an always-failing endpoint is invoked exactly 3
times. -/
theorem analysis_retry_invocation_and_delay_counts_witness :
    (callWithRetry epRateLimitTwice 3 1).outcome = .ok respEx ∧
    (callWithRetry epRateLimitTwice 3 1).calls = 3 ∧
    (callWithRetry epRateLimitTwice 3 1).delays = [1, 2] ∧
    (callWithRetry (fun _ => .error .rateLimitError) 3 1).calls = 3 := by
  obtain ⟨h1, h2, h3⟩ := analysis_retry_invocation_and_delay_counts.1
    epRateLimitTwice 3 3 1 respEx (by omega) (by omega)
    (fun n hn => ⟨.rateLimitError, by
      have : n < 2 := by omega
      simp [epRateLimitTwice, this], rfl⟩) rfl
  refine ⟨h1, h2, ?_, ?_⟩
  · rw [h3]; norm_num [List.range_succ]
  · exact analysis_retry_invocation_and_delay_counts.2
      (fun _ => .error .rateLimitError) (fun _ => .rateLimitError) 3 1 (by omega)
      (fun n _ => ⟨rfl, rfl⟩)

/-! ### Claim C4 -/

/-- C4 counterexample: with an endpoint that always raises a rate-limit
failure and 3 attempts, the code re-raises the bare original failure —
`outcome = .error .rateLimitError`, the very value the endpoint raised, with
no wrapper — whereas the spec's own taxonomy (`specRetryOutcome`, written
from the spec's words) demands the distinct tag
`retriesExhausted .rateLimitError`.  So the failure is raised untagged,
contrary to the claim. -/
theorem retries_exhausted_tag_counterexample :
    (callWithRetry (fun _ => .error .rateLimitError) 3 1).outcome
        = .error ApiFailure.rateLimitError ∧
    specRetryOutcome (fun _ => .error .rateLimitError) 3
        = .error (SpecAnalysisError.retriesExhausted .rateLimitError) :=
  ⟨rfl, rfl⟩

/-- C4 (amended): when all `maxRetries` attempts raise retryable failures,
the analysis call propagates the last observed failure itself — the original
exception object, so its classification (rate-limit, connection, or server
error) is preserved — after exactly `maxRetries` invocations; no distinct
`RetriesExhausted` tag is attached. -/
theorem retry_exhaustion_propagates_last_failure :
    ∀ (endpoint : Nat → Except ApiFailure ApiResponse) (errOf : Nat → ApiFailure)
      (maxRetries : Nat) (d : ℚ),
      1 ≤ maxRetries →
      (∀ n, n < maxRetries →
        endpoint n = .error (errOf n) ∧ isRetryableFailure (errOf n) = true) →
      (callWithRetry endpoint maxRetries d).outcome = .error (errOf (maxRetries - 1)) ∧
      (callWithRetry endpoint maxRetries d).calls = maxRetries := by
  intro endpoint errOf maxRetries d hpos hfail
  have h := callWithRetryGo_exhaust endpoint maxRetries d errOf hfail maxRetries 0
    none [] (by omega) (by omega)
  unfold callWithRetry
  rw [h]
  exact ⟨rfl, rfl⟩

theorem retry_exhaustion_propagates_last_failure_witness :
    (callWithRetry (fun _ => .error .apiConnectionError) 3 1).outcome
        = .error ApiFailure.apiConnectionError ∧
    (callWithRetry (fun _ => .error .apiConnectionError) 3 1).calls = 3 :=
  retry_exhaustion_propagates_last_failure (fun _ => .error .apiConnectionError)
    (fun _ => .apiConnectionError) 3 1 (by omega) (fun n _ => ⟨rfl, rfl⟩)

/-! ### Claim C5 -/

/-- C5 counterexample, refuting both halves of the claim at concrete
inputs.  First: an endpoint error carrying no HTTP status code (`apiError
none` — Python: an `APIError` without a `status_code` attribute) is none of
rate-limit, connection failure, or 5xx server error, so the claim classifies
it as `Other` and demands exactly 1 invocation and no delay; the code
retries it: 3 invocations and two blocking delays.  Second: for a genuine
4xx client error the code propagates the bare original failure — the very
value the endpoint raised, after 1 invocation — whereas the spec's own
taxonomy (`specRetryOutcome`, written from the spec's words) demands it
surface wrapped as `fatalRequestError`; no such wrapper is attached. -/
theorem fatal_other_is_retried_counterexample :
    (callWithRetry (fun _ => .error (.apiError none)) 3 1).calls = 3 ∧
    (callWithRetry (fun _ => .error (.apiError none)) 3 1).delays = [1, 2] ∧
    (callWithRetry (fun _ => .error (.apiError none)) 3 1).outcome
        = .error (ApiFailure.apiError none) ∧
    (callWithRetry (fun _ => .error (.apiError (some 404))) 3 1).outcome
        = .error (ApiFailure.apiError (some 404)) ∧
    (callWithRetry (fun _ => .error (.apiError (some 404))) 3 1).calls = 1 ∧
    specRetryOutcome (fun _ => .error (.apiError (some 404))) 3
        = .error (SpecAnalysisError.fatalRequestError (.apiError (some 404))) := by
  refine ⟨rfl, ?_, rfl, rfl, rfl, rfl⟩
  have hd : (callWithRetry (fun _ => .error (.apiError none)) 3 1).delays
      = [1 * 2 ^ 0, 1 * 2 ^ 1] := rfl
  rw [hd]
  norm_num

/-- C5 (amended): a failure the code treats as non-retryable — an endpoint
error with a status code in `[400, 500)` (4xx `ClientError`), or any
exception outside the endpoint-error hierarchy — propagates immediately as
the original exception itself (so it carries the original failure detail,
but no distinct `FatalRequestError` wrapper is attached), after exactly 1
invocation and with no delay.  (An endpoint `APIError` with no status code,
or with a status outside `[400, 500)`, is treated as retryable instead.) -/
theorem fatal_failure_propagates_without_retry :
    ∀ (endpoint : Nat → Except ApiFailure ApiResponse) (maxRetries : Nat) (d : ℚ)
      (e : ApiFailure),
      1 ≤ maxRetries →
      endpoint 0 = .error e →
      isRetryableFailure e = false →
      (callWithRetry endpoint maxRetries d).outcome = .error e ∧
      (callWithRetry endpoint maxRetries d).calls = 1 ∧
      (callWithRetry endpoint maxRetries d).delays = [] := by
  intro endpoint maxRetries d e hpos he hnr
  obtain ⟨fuel, hf⟩ : ∃ fuel, maxRetries = fuel + 1 := ⟨maxRetries - 1, by omega⟩
  unfold callWithRetry
  rw [hf]
  simp [callWithRetryGo, he, hnr]

theorem fatal_failure_propagates_without_retry_witness :
    (callWithRetry (fun _ => .error (.apiError (some 400))) 3 1).outcome
        = .error (ApiFailure.apiError (some 400)) ∧
    (callWithRetry (fun _ => .error (.apiError (some 400))) 3 1).calls = 1 ∧
    (callWithRetry (fun _ => .error (.apiError (some 400))) 3 1).delays = [] :=
  fatal_failure_propagates_without_retry (fun _ => .error (.apiError (some 400)))
    3 1 (.apiError (some 400)) (by omega) rfl (by decide)

/-! ### Claim C9 -/

/-- C9: for non-empty prompt text, when the retried call succeeds with some
response, `analyze_paper` returns a result whose token counts equal the
response's and increments the instance's usage counters exactly once, by
exactly those counts; and whenever the retried call fails (including after
retry exhaustion) — or the input is rejected — the usage counters are not
mutated. -/
theorem analyze_usage_accounting :
    (∀ (endpoint : Nat → Except ApiFailure ApiResponse) (maxRetries : Nat)
        (d : ℚ) (usage : UsageStats) (paperText : String) (resp : ApiResponse),
      pyStrip paperText ≠ "" →
      (callWithRetry endpoint maxRetries d).outcome = .ok resp →
      ∃ out, (analyzePaper endpoint maxRetries d usage paperText).outcome = .ok out ∧
        out.inputTokens = resp.inputTokens ∧
        out.outputTokens = resp.outputTokens ∧
        (analyzePaper endpoint maxRetries d usage paperText).usage =
          ⟨usage.totalInputTokens + resp.inputTokens,
           usage.totalOutputTokens + resp.outputTokens,
           usage.totalRequests + 1⟩) ∧
    (∀ (endpoint : Nat → Except ApiFailure ApiResponse) (maxRetries : Nat)
        (d : ℚ) (usage : UsageStats) (paperText : String) (e : ApiFailure),
      (callWithRetry endpoint maxRetries d).outcome = .error e →
      (analyzePaper endpoint maxRetries d usage paperText).usage = usage) := by
  constructor
  · intro endpoint maxRetries d usage paperText resp hne hok
    refine ⟨⟨extractText resp.content, resp.model, resp.inputTokens,
      resp.outputTokens, resp.stopReason⟩, ?_, rfl, rfl, ?_⟩ <;>
      simp [analyzePaper, hne, hok]
  · intro endpoint maxRetries d usage paperText e herr
    by_cases hemp : pyStrip paperText = ""
    · simp [analyzePaper, hemp]
    · simp [analyzePaper, hemp, herr]

theorem analyze_usage_accounting_witness :
    (∃ out, (analyzePaper (fun _ => .ok respEx) 3 1 ⟨10, 20, 3⟩ "hello").outcome
          = .ok out ∧
        out.inputTokens = respEx.inputTokens ∧
        out.outputTokens = respEx.outputTokens ∧
        (analyzePaper (fun _ => .ok respEx) 3 1 ⟨10, 20, 3⟩ "hello").usage
          = ⟨10 + respEx.inputTokens, 20 + respEx.outputTokens, 3 + 1⟩) ∧
    (analyzePaper (fun _ => .error .otherException) 3 1 ⟨10, 20, 3⟩ "hello").usage
      = ⟨10, 20, 3⟩ := by
  constructor
  · exact analyze_usage_accounting.1 (fun _ => .ok respEx) 3 1 ⟨10, 20, 3⟩ "hello"
      respEx (by decide) rfl
  · exact analyze_usage_accounting.2 (fun _ => .error .otherException) 3 1
      ⟨10, 20, 3⟩ "hello" .otherException rfl

/-! ### Zotero database layer: string helpers

All string scanning is done on character lists so that every definition
evaluates by kernel reduction. -/

/-- `needle` is an initial segment of `hay` (exact characters). -/
def startsWithCL : List Char → List Char → Bool
  | [], _ => true
  | _ :: _, [] => false
  | a :: as, b :: bs => a == b && startsWithCL as bs

/-- Python's `needle in hay` substring test (exact characters). -/
def containsCL (needle : List Char) : List Char → Bool
  | [] => startsWithCL needle []
  | b :: bs => startsWithCL needle (b :: bs) || containsCL needle bs

/-- Lower-cased copy of a string (ASCII case folding, as `str.lower()`
performs on the ASCII error messages involved). -/
def lowerCL (s : String) : List Char :=
  s.toList.map Char.toLower

/-! ### `retry_on_lock` (database.py lines 20-69)

The decorator wraps each of `list_items`, `get_item`, `add_note`,
`get_notes`, `search_items` with `max_retries=5`, `initial_delay=0.1`,
`backoff_factor=2.0` (database.py lines 197, 282, 436, 511, 549).  One
attempt of the wrapped operation is modelled as a function of the 0-based
attempt index; the `sqlite3.OperationalError` branch inspects the message. -/

/-- A failure raised by one attempt of a wrapped database operation, keyed
the way the decorator's `except` clauses key on it: a
`sqlite3.OperationalError` carrying its message; a plain `sqlite3.Error`
that is *not* an `OperationalError` (such as the wrapper `add_note` raises
around any exception of its insert transaction); a `ValueError` (such as
`add_note`'s parent check raises); or any other exception. -/
inductive DbFailure where
  | operationalError (msg : String) : DbFailure
  | dbError (msg : String) : DbFailure
  | valueError (msg : String) : DbFailure
  | otherError : DbFailure
deriving DecidableEq

/-- `'locked' in error_msg or 'busy' in error_msg` on the lower-cased
message (database.py line 43). -/
def isLockMessage (msg : String) : Bool :=
  containsCL "locked".toList (lowerCL msg) || containsCL "busy".toList (lowerCL msg)

/-- Whether the decorator treats a failure as a retryable lock condition:
only a `sqlite3.OperationalError` whose message mentions `locked`/`busy`
is — every other exception class falls through to `except Exception` and is
re-raised, whatever its message says. -/
def isLockError : DbFailure → Bool
  | .operationalError msg => isLockMessage msg
  | _ => false

/-- What escapes the decorator: the re-raised original failure, or the
distinct `ZoteroDatabaseLockError` (carrying the original message inside its
guidance text) when lock contention outlasted the budget. -/
inductive DbError where
  | failure (e : DbFailure) : DbError
  | databaseLocked (origMsg : String) : DbError
deriving DecidableEq

/-- Observable outcome of a decorated call: result or escaping error, number
of attempts made, and the `time.sleep` durations in order. -/
structure DbRetryResult (α : Type) where
  outcome : Except DbError α
  calls : Nat
  delays : List ℚ

/-- Loop body of the `retry_on_lock` wrapper (database.py lines 31-66):
`for attempt in range(max_retries + 1)`, retrying a lock/busy
`OperationalError` after sleeping the current `delay` (then `delay *=
backoff_factor`) while `attempt < max_retries`, converting it to
`ZoteroDatabaseLockError` on the final attempt, and re-raising anything else
immediately.  The `fuel = 0` case mirrors the unreachable post-loop
`return func(*args, **kwargs)` fallback (lines 63-66). -/
def retryOnLockGo {α : Type} (op : Nat → Except DbFailure α) (maxRetries : Nat)
    (factor : ℚ) : Nat → Nat → ℚ → List ℚ → DbRetryResult α
  | 0, attempt, _delay, acc =>
      match op attempt with
      | .ok a => ⟨.ok a, attempt + 1, acc.reverse⟩
      | .error e => ⟨.error (.failure e), attempt + 1, acc.reverse⟩
  | fuel + 1, attempt, delay, acc =>
      match op attempt with
      | .ok a => ⟨.ok a, attempt + 1, acc.reverse⟩
      | .error (.operationalError msg) =>
          if isLockMessage msg then
            if attempt < maxRetries then
              retryOnLockGo op maxRetries factor fuel (attempt + 1) (delay * factor)
                (delay :: acc)
            else ⟨.error (.databaseLocked msg), attempt + 1, acc.reverse⟩
          else ⟨.error (.failure (.operationalError msg)), attempt + 1, acc.reverse⟩
      | .error e => ⟨.error (.failure e), attempt + 1, acc.reverse⟩

/-- The `retry_on_lock` decorator applied to an operation. -/
def retryOnLock {α : Type} (op : Nat → Except DbFailure α) (maxRetries : Nat)
    (initialDelay factor : ℚ) : DbRetryResult α :=
  retryOnLockGo op maxRetries factor (maxRetries + 1) 0 initialDelay []

/-- Decorator arguments used on every `ZoteroDatabase` method. -/
def zoteroMaxRetries : Nat := 5

def zoteroInitialDelay : ℚ := 1 / 10

def zoteroBackoffFactor : ℚ := 2

/-- The sleeps performed by `k` consecutive lock-retries when the current
delay is `d`: `d`, `d * f`, `d * f ^ 2`, …. -/
def geomDelays (d f : ℚ) (k : Nat) : List ℚ :=
  (List.range k).map (fun n => d * f ^ n)

theorem geomDelays_succ (d f : ℚ) (k : Nat) :
    geomDelays d f (k + 1) = d :: geomDelays (d * f) f k := by
  unfold geomDelays
  rw [List.range_succ_eq_map, List.map_cons, List.map_map]
  refine congrArg₂ List.cons (by norm_num) (List.map_congr_left ?_)
  intro i _
  simp only [Function.comp_apply]
  rw [pow_succ]
  ring

/-- If attempts before index `k` fail with lock/busy operational errors and
attempt `k ≤ maxRetries` produces `a`, the decorated call returns `a` after
`k + 1` attempts, having slept the geometric delays. -/
theorem retryOnLockGo_success {α : Type} (op : Nat → Except DbFailure α)
    (maxRetries : Nat) (f : ℚ) (k : Nat) (a : α)
    (hle : k ≤ maxRetries)
    (hfail : ∀ n, n < k →
      ∃ m, op n = .error (.operationalError m) ∧ isLockMessage m = true)
    (hok : op k = .ok a) :
    ∀ fuel attempt d acc, attempt + fuel = maxRetries + 1 → attempt ≤ k →
      retryOnLockGo op maxRetries f fuel attempt d acc =
        ⟨.ok a, k + 1, acc.reverse ++ geomDelays d f (k - attempt)⟩ := by
  intro fuel
  induction fuel with
  | zero => intro attempt d acc hsum hka; omega
  | succ fuel ih =>
      intro attempt d acc hsum hka
      rcases eq_or_lt_of_le hka with heq | hlt
      · subst heq
        simp [retryOnLockGo, hok, geomDelays]
      · obtain ⟨m, hm, hlock⟩ := hfail attempt hlt
        have hcond : attempt < maxRetries := by omega
        simp only [retryOnLockGo, hm, hlock, if_true, if_pos hcond]
        rw [ih (attempt + 1) (d * f) (d :: acc) (by omega) (by omega)]
        have hk : k - attempt = (k - (attempt + 1)) + 1 := by omega
        rw [hk, geomDelays_succ]
        simp [List.append_assoc]

/-- If every one of the `maxRetries + 1` attempts fails with a lock/busy
operational error, the decorated call raises `ZoteroDatabaseLockError`
(carrying the final attempt's message) after `maxRetries + 1` attempts. -/
theorem retryOnLockGo_exhaust {α : Type} (op : Nat → Except DbFailure α)
    (maxRetries : Nat) (f : ℚ) (msgOf : Nat → String)
    (hfail : ∀ n, n ≤ maxRetries →
      op n = .error (.operationalError (msgOf n)) ∧ isLockMessage (msgOf n) = true) :
    ∀ fuel attempt d acc, attempt + fuel = maxRetries + 1 → attempt ≤ maxRetries →
      retryOnLockGo op maxRetries f fuel attempt d acc =
        ⟨.error (.databaseLocked (msgOf maxRetries)), maxRetries + 1,
         acc.reverse ++ geomDelays d f (maxRetries - attempt)⟩ := by
  intro fuel
  induction fuel with
  | zero => intro attempt d acc hsum hka; omega
  | succ fuel ih =>
      intro attempt d acc hsum hka
      obtain ⟨hm, hlock⟩ := hfail attempt hka
      by_cases hcond : attempt < maxRetries
      · simp only [retryOnLockGo, hm, hlock, if_true, if_pos hcond]
        rw [ih (attempt + 1) (d * f) (d :: acc) (by omega) (by omega)]
        have hk : maxRetries - attempt = (maxRetries - (attempt + 1)) + 1 := by omega
        rw [hk, geomDelays_succ]
        simp [List.append_assoc]
      · have hlast : attempt = maxRetries := by omega
        simp only [retryOnLockGo, hm, hlock, if_true, if_neg hcond]
        subst hlast
        simp [geomDelays]

/-- A failure that is not a lock/busy condition, hit on attempt `k` after
`k` lock-failures, is re-raised immediately: no further attempt, no further
delay. -/
theorem retryOnLockGo_nonlock {α : Type} (op : Nat → Except DbFailure α)
    (maxRetries : Nat) (f : ℚ) (k : Nat) (e : DbFailure)
    (hle : k ≤ maxRetries)
    (hfail : ∀ n, n < k →
      ∃ m, op n = .error (.operationalError m) ∧ isLockMessage m = true)
    (herr : op k = .error e) (hne : isLockError e = false) :
    ∀ fuel attempt d acc, attempt + fuel = maxRetries + 1 → attempt ≤ k →
      retryOnLockGo op maxRetries f fuel attempt d acc =
        ⟨.error (.failure e), k + 1, acc.reverse ++ geomDelays d f (k - attempt)⟩ := by
  intro fuel
  induction fuel with
  | zero => intro attempt d acc hsum hka; omega
  | succ fuel ih =>
      intro attempt d acc hsum hka
      rcases eq_or_lt_of_le hka with heq | hlt
      · subst heq
        cases e with
        | operationalError msg =>
            have hmsg : isLockMessage msg = false := by
              simpa [isLockError] using hne
            simp [retryOnLockGo, herr, hmsg, geomDelays]
        | dbError msg =>
            simp [retryOnLockGo, herr, geomDelays]
        | valueError msg =>
            simp [retryOnLockGo, herr, geomDelays]
        | otherError =>
            simp [retryOnLockGo, herr, geomDelays]
      · obtain ⟨m, hm, hlock⟩ := hfail attempt hlt
        have hcond : attempt < maxRetries := by omega
        simp only [retryOnLockGo, hm, hlock, if_true, if_pos hcond]
        rw [ih (attempt + 1) (d * f) (d :: acc) (by omega) (by omega)]
        have hk : k - attempt = (k - (attempt + 1)) + 1 := by omega
        rw [hk, geomDelays_succ]
        simp [List.append_assoc]

/-! ### Claim C2 -/

/-- C2 (amended): under the decorator applied to every database operation
(`max_retries = 5`, `initial_delay = 0.1`, `backoff_factor = 2.0`), for an
attempt that surfaces its lock/busy condition to the decorator as a
`sqlite3.OperationalError` — which every lock does for the four read
operations, but for `add_note` only a lock at connection acquisition or the
parent-check read, since its insert transaction wraps exceptions raised by
the inserts or the commit into a plain `sqlite3.Error`:
a lock/busy failure on attempt `n` (0-based) is followed by a wait of
`0.1 * 2 ^ n` and a retry, up to 5 additional attempts after the first
(6 attempts total); if every attempt reports lock/busy the call fails with
`databaseLocked`, an error kind distinct from generic database failures; and
a failure that is not a lock/busy `OperationalError` propagates immediately,
with no retry and no further delay. -/
theorem db_lock_retry_policy :
    (∀ (α : Type) (op : Nat → Except DbFailure α) (k : Nat) (a : α),
      k ≤ zoteroMaxRetries →
      (∀ n, n < k →
        ∃ m, op n = .error (.operationalError m) ∧ isLockMessage m = true) →
      op k = .ok a →
      (retryOnLock op zoteroMaxRetries zoteroInitialDelay zoteroBackoffFactor).outcome
          = .ok a ∧
      (retryOnLock op zoteroMaxRetries zoteroInitialDelay zoteroBackoffFactor).calls
          = k + 1 ∧
      (retryOnLock op zoteroMaxRetries zoteroInitialDelay zoteroBackoffFactor).delays
          = geomDelays zoteroInitialDelay zoteroBackoffFactor k) ∧
    (∀ (α : Type) (op : Nat → Except DbFailure α) (msgOf : Nat → String),
      (∀ n, n ≤ zoteroMaxRetries →
        op n = .error (.operationalError (msgOf n)) ∧ isLockMessage (msgOf n) = true) →
      (retryOnLock op zoteroMaxRetries zoteroInitialDelay zoteroBackoffFactor).outcome
          = .error (.databaseLocked (msgOf zoteroMaxRetries)) ∧
      (retryOnLock op zoteroMaxRetries zoteroInitialDelay zoteroBackoffFactor).calls
          = zoteroMaxRetries + 1) ∧
    (∀ (α : Type) (op : Nat → Except DbFailure α) (k : Nat) (e : DbFailure),
      k ≤ zoteroMaxRetries →
      (∀ n, n < k →
        ∃ m, op n = .error (.operationalError m) ∧ isLockMessage m = true) →
      op k = .error e → isLockError e = false →
      (retryOnLock op zoteroMaxRetries zoteroInitialDelay zoteroBackoffFactor).outcome
          = .error (.failure e) ∧
      (retryOnLock op zoteroMaxRetries zoteroInitialDelay zoteroBackoffFactor).calls
          = k + 1 ∧
      (retryOnLock op zoteroMaxRetries zoteroInitialDelay zoteroBackoffFactor).delays
          = geomDelays zoteroInitialDelay zoteroBackoffFactor k) ∧
    (∀ (m : String) (e : DbFailure), DbError.databaseLocked m ≠ DbError.failure e) := by
  refine ⟨?_, ?_, ?_, ?_⟩
  · intro α op k a hle hfail hok
    have h := retryOnLockGo_success op zoteroMaxRetries zoteroBackoffFactor k a hle
      hfail hok (zoteroMaxRetries + 1) 0 zoteroInitialDelay [] (by omega) (by omega)
    unfold retryOnLock
    rw [h]
    exact ⟨rfl, rfl, by simp⟩
  · intro α op msgOf hfail
    have h := retryOnLockGo_exhaust op zoteroMaxRetries zoteroBackoffFactor msgOf
      hfail (zoteroMaxRetries + 1) 0 zoteroInitialDelay [] (by omega) (by omega)
    unfold retryOnLock
    rw [h]
    exact ⟨rfl, rfl⟩
  · intro α op k e hle hfail herr hne
    have h := retryOnLockGo_nonlock op zoteroMaxRetries zoteroBackoffFactor k e hle
      hfail herr hne (zoteroMaxRetries + 1) 0 zoteroInitialDelay [] (by omega)
      (by omega)
    unfold retryOnLock
    rw [h]
    exact ⟨rfl, rfl, by simp⟩
  · intro m e h
    exact DbError.noConfusion h

/-- Witness for C2: a read that hits `database is locked` twice then
succeeds waits 0.1 then 0.2 and returns on the third attempt; an operation
locked on all six attempts raises `databaseLocked`; a non-lock failure on
the first attempt escapes after one attempt with no delay. -/
theorem db_lock_retry_policy_witness :
    ((retryOnLock (fun n => if n < 2 then .error (.operationalError "database is locked")
        else .ok (42 : Nat)) zoteroMaxRetries zoteroInitialDelay
        zoteroBackoffFactor).outcome = .ok 42 ∧
      (retryOnLock (fun n => if n < 2 then .error (.operationalError "database is locked")
        else .ok (42 : Nat)) zoteroMaxRetries zoteroInitialDelay
        zoteroBackoffFactor).calls = 3 ∧
      (retryOnLock (fun n => if n < 2 then .error (.operationalError "database is locked")
        else .ok (42 : Nat)) zoteroMaxRetries zoteroInitialDelay
        zoteroBackoffFactor).delays = [1 / 10, 1 / 5]) ∧
    ((retryOnLock (fun _ => (.error (.operationalError "database is busy") :
            Except DbFailure Nat))
        zoteroMaxRetries zoteroInitialDelay zoteroBackoffFactor).outcome
          = .error (.databaseLocked "database is busy")
        ∧ (retryOnLock (fun _ => (.error (.operationalError "database is busy") :
            Except DbFailure Nat))
        zoteroMaxRetries zoteroInitialDelay zoteroBackoffFactor).calls = 6) ∧
    ((retryOnLock (fun _ => (.error .otherError : Except DbFailure Nat))
        zoteroMaxRetries zoteroInitialDelay zoteroBackoffFactor).outcome
          = .error (.failure .otherError)) := by
  refine ⟨?_, ?_, ?_⟩
  · obtain ⟨h1, h2, h3⟩ := db_lock_retry_policy.1 Nat
      (fun n => if n < 2 then .error (.operationalError "database is locked")
        else .ok (42 : Nat)) 2 42 (by decide)
      (fun n hn => ⟨"database is locked", by
        have : n < 2 := hn
        simp [this], by decide⟩) rfl
    refine ⟨h1, h2, ?_⟩
    rw [h3]
    norm_num [geomDelays, List.range_succ, zoteroInitialDelay, zoteroBackoffFactor]
  · have hb : isLockMessage "database is busy" = true := by decide
    obtain ⟨h1, h2⟩ := db_lock_retry_policy.2.1 Nat
      (fun _ => .error (.operationalError "database is busy"))
      (fun _ => "database is busy") (fun n _ => ⟨rfl, hb⟩)
    exact ⟨h1, h2⟩
  · exact (db_lock_retry_policy.2.2.1 Nat
      (fun _ => (.error .otherError : Except DbFailure Nat)) 0 .otherError
      (by decide) (fun n hn => absurd hn (by omega)) rfl (by decide)).1

/-! ### Zotero database: data model

Tables are modelled as row lists.  Where the code joins a table against its
lookup tables through foreign keys (`itemData ⋈ fields ⋈ itemDataValues`,
`itemCreators ⋈ creators ⋈ creatorTypes`, `itemTags ⋈ tags`,
`collectionItems ⋈ collections`), the joined, foreign-key-resolved row is
modelled directly — the schema is externally owned by Zotero and enforces
those keys.  `itemTypes` is kept separate because `add_note` queries it. -/

structure ItemRow where
  itemID : Nat
  itemTypeID : Nat
  libraryID : Nat
  key : String
  dateAdded : String
  dateModified : String
deriving DecidableEq

structure ItemDataRow where
  itemID : Nat
  fieldName : String
  value : String
deriving DecidableEq

structure CreatorRow where
  itemID : Nat
  orderIndex : Nat
  creatorType : String
  firstName : Option String
  lastName : Option String
deriving DecidableEq

structure NoteRow where
  itemID : Nat
  parentItemID : Option Nat
  note : String
deriving DecidableEq

structure AttachmentRow where
  itemID : Nat
  parentItemID : Option Nat
  path : Option String
  contentType : Option String
deriving DecidableEq

structure TagRow where
  itemID : Nat
  name : String
deriving DecidableEq

structure CollectionItemRow where
  itemID : Nat
  collectionName : String
deriving DecidableEq

structure ZDb where
  items : List ItemRow
  itemTypes : List (Nat × String)
  itemData : List ItemDataRow
  creators : List CreatorRow
  itemNotes : List NoteRow
  itemAttachments : List AttachmentRow
  itemTags : List TagRow
  collectionItems : List CollectionItemRow
  deletedItems : List Nat
deriving DecidableEq

/-- `itemID NOT IN (SELECT itemID FROM deletedItems)` negated. -/
def isDeleted (db : ZDb) (i : Nat) : Bool :=
  db.deletedItems.contains i

/-- The parent lookup of `add_note` (database.py lines 461-466):
`SELECT itemID, libraryID FROM items WHERE itemID = ? AND itemID NOT IN
(SELECT itemID FROM deletedItems)`, first row. -/
def findItem (db : ZDb) (i : Nat) : Option ItemRow :=
  if isDeleted db i then none else db.items.find? (fun r => r.itemID == i)

/-- Largest allocated item id (SQLite assigns `max(rowid) + 1` to the next
inserted row of `items`, whose `itemID` is its rowid). -/
def maxItemID (db : ZDb) : Nat :=
  (db.items.map (·.itemID)).foldr max 0

def nextItemID (db : ZDb) : Nat :=
  maxItemID db + 1

/-- Errors escaping `add_note` itself: the `ValueError` when the parent item
does not exist (raised before the `try` block), or the `sqlite3.Error` that
wraps any exception raised during the insert transaction (database.py lines
508-509); the connection context rolls the transaction back in either case. -/
inductive AddNoteError where
  | parentNotFound : AddNoteError
  | storageWriteFailure : AddNoteError
deriving DecidableEq

/-- `ZoteroDatabase.add_note` (database.py lines 436-509).  `nowStr` models
the two `datetime.now().strftime(...)` reads and `newKey` the md5-derived
8-character key — both environment inputs.  Failure paths return the
original `db` (rollback-then-close).  The modelled in-transaction failures
are: no `note` row in `itemTypes` (the `fetchone()['itemTypeID']` subscript
raises, is wrapped into `sqlite3.Error`), and a violation of Zotero's
`UNIQUE (libraryID, key)` constraint on `items` by the generated key.  On
success the item row and the note row are appended and committed. -/
def addNote (db : ZDb) (parentItemId : Nat) (noteContent : String)
    (noteTitle : Option String) (nowStr : String) (newKey : String) :
    Except AddNoteError Nat × ZDb :=
  match findItem db parentItemId with
  | none => (.error .parentNotFound, db)
  | some parent =>
      match db.itemTypes.find? (fun p => p.2 == "note") with
      | none => (.error .storageWriteFailure, db)
      | some noteType =>
          if db.items.any (fun r => r.libraryID == parent.libraryID && r.key == newKey)
          then (.error .storageWriteFailure, db)
          else
            (.ok (nextItemID db),
             { db with
                items := db.items ++
                  [⟨nextItemID db, noteType.1, parent.libraryID, newKey, nowStr, nowStr⟩],
                itemNotes := db.itemNotes ++
                  [⟨nextItemID db, some parentItemId,
                    (noteTitle.getD "AI Analysis") ++ "\n\n" ++ noteContent⟩] })

/-- Insertion step of `ORDER BY key DESC` (string comparison, larger keys
first; ties keep their relative order). -/
def insertDescBy {α : Type} (key : α → String) (x : α) : List α → List α
  | [] => [x]
  | y :: ys => if key y < key x then x :: y :: ys else y :: insertDescBy key x ys

/-- `ORDER BY key DESC` via insertion sort. -/
def sortDescBy {α : Type} (key : α → String) : List α → List α
  | [] => []
  | x :: xs => insertDescBy key x (sortDescBy key xs)

theorem mem_insertDescBy {α : Type} (key : α → String) (x a : α) (l : List α) :
    a ∈ insertDescBy key x l ↔ a = x ∨ a ∈ l := by
  induction l with
  | nil => simp [insertDescBy]
  | cons y ys ih =>
      by_cases h : key y < key x
      · simp [insertDescBy, h]
      · simp only [insertDescBy, if_neg h, List.mem_cons, ih]
        tauto

theorem mem_sortDescBy {α : Type} (key : α → String) (a : α) (l : List α) :
    a ∈ sortDescBy key l ↔ a ∈ l := by
  induction l with
  | nil => simp [sortDescBy]
  | cons x xs ih => simp [sortDescBy, mem_insertDescBy, ih]

/-- Shape of a successful `add_note`: the returned id is the freshly
assigned rowid, exactly one item row and one note row are appended, and the
rest of the store is untouched. -/
theorem addNote_ok_shape {db : ZDb} {pid : Nat} {content : String}
    {title : Option String} {nowStr newKey : String} {nid : Nat} {db2 : ZDb}
    (h : addNote db pid content title nowStr newKey = (.ok nid, db2)) :
    nid = nextItemID db ∧
    (∃ tid lib, db2.items = db.items ++ [⟨nid, tid, lib, newKey, nowStr, nowStr⟩]) ∧
    db2.itemNotes = db.itemNotes ++
      [⟨nid, some pid, (title.getD "AI Analysis") ++ "\n\n" ++ content⟩] ∧
    db2.deletedItems = db.deletedItems := by
  unfold addNote at h
  split at h
  · simp at h
  · split at h
    · simp at h
    · split at h
      · simp at h
      · rw [Prod.mk.injEq] at h
        obtain ⟨h1, h2⟩ := h
        have hnid : nid = nextItemID db := (Except.ok.inj h1).symm
        subst h2
        subst hnid
        exact ⟨rfl, ⟨_, _, rfl⟩, rfl, rfl⟩

/-! ### Claim C3 -/

/-- C3: if `parentId` references no existing, non-deleted record, `add_note`
fails with the parent-not-found error — the check runs on the same
connection as the insert, before any write — and the returned store is the
unchanged input store (no new item row, no new note row); more generally,
every failing outcome of `add_note` leaves the store unchanged (the
transaction is rolled back before the error escapes). -/
theorem addNote_parent_check_and_rollback :
    (∀ (db : ZDb) (pid : Nat) (content : String) (title : Option String)
        (nowStr newKey : String),
      (pid ∈ db.deletedItems ∨ ∀ r ∈ db.items, r.itemID ≠ pid) →
      addNote db pid content title nowStr newKey = (.error .parentNotFound, db)) ∧
    (∀ (db : ZDb) (pid : Nat) (content : String) (title : Option String)
        (nowStr newKey : String) (e : AddNoteError),
      (addNote db pid content title nowStr newKey).1 = .error e →
      (addNote db pid content title nowStr newKey).2 = db) := by
  constructor
  · intro db pid content title nowStr newKey h
    have hf : findItem db pid = none := by
      unfold findItem
      rcases h with h | h
      · have hdel : isDeleted db pid = true := by
          simpa [isDeleted] using h
        simp [hdel]
      · by_cases hd : isDeleted db pid
        · simp [hd]
        · simp only [hd, if_false, if_neg]
          apply List.find?_eq_none.mpr
          intro r hr
          simpa using h r hr
    unfold addNote
    rw [hf]
  · intro db pid content title nowStr newKey e
    unfold addNote
    split
    · intro _; rfl
    · split
      · intro _; rfl
      · split
        · intro _; rfl
        · intro hcon; simp at hcon

/-- The empty store. -/
def emptyDb : ZDb := ⟨[], [], [], [], [], [], [], [], []⟩

theorem addNote_parent_check_and_rollback_witness :
    addNote emptyDb 7 "body" none "2024-01-01 00:00:00" "ABCD1234"
        = (.error .parentNotFound, emptyDb) ∧
    (addNote emptyDb 7 "body" none "2024-01-01 00:00:00" "ABCD1234").2 = emptyDb := by
  constructor
  · exact addNote_parent_check_and_rollback.1 emptyDb 7 "body" none
      "2024-01-01 00:00:00" "ABCD1234" (Or.inr (by intro r hr; simp [emptyDb] at hr))
  · exact addNote_parent_check_and_rollback.2 emptyDb 7 "body" none
      "2024-01-01 00:00:00" "ABCD1234" .parentNotFound (by rfl)

/-! ### Claim C7 -/

/-- A store holding one journal article (item 1) in library 1. -/
def parentDb : ZDb :=
  { items := [⟨1, 2, 1, "PKEY", "2024-01-01 00:00:00", "2024-01-02 00:00:00"⟩],
    itemTypes := [(1, "note"), (2, "journalArticle")],
    itemData := [], creators := [], itemNotes := [], itemAttachments := [],
    itemTags := [], collectionItems := [], deletedItems := [] }

/-- `parentDb` after `add_note(1, "body text", "My Title")`. -/
def noteAddedDbTitled : ZDb :=
  { items := [⟨1, 2, 1, "PKEY", "2024-01-01 00:00:00", "2024-01-02 00:00:00"⟩,
              ⟨2, 1, 1, "ABCD1234", "2024-01-03 00:00:00", "2024-01-03 00:00:00"⟩],
    itemTypes := [(1, "note"), (2, "journalArticle")],
    itemData := [], creators := [],
    itemNotes := [⟨2, some 1, "My Title\n\nbody text"⟩],
    itemAttachments := [], itemTags := [], collectionItems := [],
    deletedItems := [] }

/-- Where, if anywhere, the engine reports its lock/busy condition during
one `add_note` attempt. -/
inductive LockStage where
  | noLock : LockStage
  | atRead : LockStage
  | atWrite : LockStage
deriving DecidableEq

/-- One attempt of the decorated `add_note`, as `retry_on_lock` observes it
(database.py lines 436-509):

* `atRead` — the engine raises `OperationalError(lockMsg)` at connection
  acquisition or the parent-check `SELECT`, before the internal `try`: the
  connection context rolls back and closes, and the error escapes the
  method unwrapped;
* `atWrite` — the engine raises `OperationalError(lockMsg)` at the
  `INSERT`s or `commit()` inside the internal `try` (reached only when the
  parent check passed): `except Exception as e` wraps it into the plain
  `sqlite3.Error(f"Failed to add note: {e}")`;
* `noLock` — the attempt runs `add_note` to its normal outcome; the
  `ValueError` of a missing parent and the wrapping `sqlite3.Error` of
  other transaction failures are likewise not `OperationalError`s. -/
def addNoteAttempt (db : ZDb) (parentItemId : Nat) (noteContent : String)
    (noteTitle : Option String) (nowStr newKey lockMsg : String) :
    LockStage → Except DbFailure (Nat × ZDb)
  | .atRead => .error (.operationalError lockMsg)
  | .atWrite =>
      match findItem db parentItemId with
      | none => .error (.valueError
          ("Parent item " ++ toString parentItemId ++ " not found"))
      | some _ => .error (.dbError ("Failed to add note: " ++ lockMsg))
  | .noLock =>
      match addNote db parentItemId noteContent noteTitle nowStr newKey with
      | (.ok nid, db2) => .ok (nid, db2)
      | (.error .parentNotFound, _) => .error (.valueError
          ("Parent item " ++ toString parentItemId ++ " not found"))
      | (.error .storageWriteFailure, _) => .error (.dbError "Failed to add note")

/-- C6 counterexample: the engine holds the lock only during attempt 0 —
and reports it at the insert stage — then releases it, well inside the
budget of 5 additional attempts; the claim says the write eventually
succeeds, but the wrapped `sqlite3.Error("Failed to add note: database is
locked")` is re-raised by the decorator immediately: 1 attempt, no delay,
no retry, no success — even though the message is a lock/busy message. -/
theorem addNote_insert_stage_lock_counterexample :
    (retryOnLock
        (fun n => addNoteAttempt parentDb 1 "body text" (some "My Title")
          "2024-01-03 00:00:00" "ABCD1234" "database is locked"
          (if n = 0 then .atWrite else .noLock))
        zoteroMaxRetries zoteroInitialDelay zoteroBackoffFactor).outcome
      = .error (.failure (.dbError "Failed to add note: database is locked")) ∧
    (retryOnLock
        (fun n => addNoteAttempt parentDb 1 "body text" (some "My Title")
          "2024-01-03 00:00:00" "ABCD1234" "database is locked"
          (if n = 0 then .atWrite else .noLock))
        zoteroMaxRetries zoteroInitialDelay zoteroBackoffFactor).calls = 1 ∧
    (retryOnLock
        (fun n => addNoteAttempt parentDb 1 "body text" (some "My Title")
          "2024-01-03 00:00:00" "ABCD1234" "database is locked"
          (if n = 0 then .atWrite else .noLock))
        zoteroMaxRetries zoteroInitialDelay zoteroBackoffFactor).delays = [] ∧
    isLockMessage "database is locked" = true := by
  refine ⟨rfl, rfl, rfl, by decide⟩

/-- C6 (amended): a write whose lock/busy signal arises at connection
acquisition or the parent-check read — outside the method's internal `try` —
on its first `k ≤ 5` attempts and is then released eventually succeeds, and
the committed store holds exactly one new note row for the parent (each
locked attempt was rolled back and contributes nothing, so no duplicate
arises).  But a lock/busy signal raised by the insert statements or the
commit is wrapped into a generic database error inside the method and
propagates immediately, unretried, after a single attempt with no delay:
the lock/busy condition is *not* a retried transient at every stage of the
write. -/
theorem addNote_read_lock_release_single_note :
    (∀ (db : ZDb) (pid : Nat) (body : String) (title : Option String)
        (nowStr newKey lockMsg : String) (nid : Nat) (db2 : ZDb) (k : Nat),
      k ≤ zoteroMaxRetries →
      isLockMessage lockMsg = true →
      addNote db pid body title nowStr newKey = (.ok nid, db2) →
      (retryOnLock
          (fun n => addNoteAttempt db pid body title nowStr newKey lockMsg
            (if n < k then .atRead else .noLock))
          zoteroMaxRetries zoteroInitialDelay zoteroBackoffFactor).outcome
        = .ok (nid, db2) ∧
      (retryOnLock
          (fun n => addNoteAttempt db pid body title nowStr newKey lockMsg
            (if n < k then .atRead else .noLock))
          zoteroMaxRetries zoteroInitialDelay zoteroBackoffFactor).calls = k + 1 ∧
      db2.itemNotes.length = db.itemNotes.length + 1 ∧
      (db2.itemNotes.filter (fun n => n.parentItemID == some pid)).length
        = (db.itemNotes.filter (fun n => n.parentItemID == some pid)).length + 1) ∧
    (∀ (db : ZDb) (pid : Nat) (body : String) (title : Option String)
        (nowStr newKey lockMsg : String) (parent : ItemRow),
      findItem db pid = some parent →
      (retryOnLock
          (fun _ => addNoteAttempt db pid body title nowStr newKey lockMsg .atWrite)
          zoteroMaxRetries zoteroInitialDelay zoteroBackoffFactor).outcome
        = .error (.failure (.dbError ("Failed to add note: " ++ lockMsg))) ∧
      (retryOnLock
          (fun _ => addNoteAttempt db pid body title nowStr newKey lockMsg .atWrite)
          zoteroMaxRetries zoteroInitialDelay zoteroBackoffFactor).calls = 1 ∧
      (retryOnLock
          (fun _ => addNoteAttempt db pid body title nowStr newKey lockMsg .atWrite)
          zoteroMaxRetries zoteroInitialDelay zoteroBackoffFactor).delays = []) := by
  constructor
  · intro db pid body title nowStr newKey lockMsg nid db2 k hk hmsg hadd
    obtain ⟨hnid, hitems, hnotes, hdel⟩ := addNote_ok_shape hadd
    have h1 := retryOnLockGo_success
      (fun n => addNoteAttempt db pid body title nowStr newKey lockMsg
        (if n < k then .atRead else .noLock))
      zoteroMaxRetries zoteroBackoffFactor k (nid, db2) hk
      (fun n hn => ⟨lockMsg, by simp [hn, addNoteAttempt], hmsg⟩)
      (by simp [addNoteAttempt, hadd])
      (zoteroMaxRetries + 1) 0 zoteroInitialDelay [] (by omega) (by omega)
    unfold retryOnLock
    rw [h1]
    refine ⟨rfl, rfl, ?_, ?_⟩
    · rw [hnotes]; simp
    · rw [hnotes, List.filter_append]
      simp
  · intro db pid body title nowStr newKey lockMsg parent hpar
    have herr : addNoteAttempt db pid body title nowStr newKey lockMsg .atWrite
        = .error (.dbError ("Failed to add note: " ++ lockMsg)) := by
      simp [addNoteAttempt, hpar]
    have h1 := retryOnLockGo_nonlock
      (fun _ => addNoteAttempt db pid body title nowStr newKey lockMsg .atWrite)
      zoteroMaxRetries zoteroBackoffFactor 0
      (.dbError ("Failed to add note: " ++ lockMsg)) (by omega)
      (fun n hn => absurd hn (by omega)) herr rfl
      (zoteroMaxRetries + 1) 0 zoteroInitialDelay [] (by omega) (by omega)
    unfold retryOnLock
    rw [h1]
    exact ⟨rfl, rfl, by simp [geomDelays]⟩

theorem addNote_read_lock_release_single_note_witness :
    ((retryOnLock
        (fun n => addNoteAttempt parentDb 1 "body text" (some "My Title")
          "2024-01-03 00:00:00" "ABCD1234" "database is locked"
          (if n < 2 then .atRead else .noLock))
        zoteroMaxRetries zoteroInitialDelay zoteroBackoffFactor).outcome
      = .ok (2, noteAddedDbTitled) ∧
    (retryOnLock
        (fun n => addNoteAttempt parentDb 1 "body text" (some "My Title")
          "2024-01-03 00:00:00" "ABCD1234" "database is locked"
          (if n < 2 then .atRead else .noLock))
        zoteroMaxRetries zoteroInitialDelay zoteroBackoffFactor).calls = 3 ∧
    noteAddedDbTitled.itemNotes.length = parentDb.itemNotes.length + 1 ∧
    (noteAddedDbTitled.itemNotes.filter (fun n => n.parentItemID == some 1)).length
      = (parentDb.itemNotes.filter (fun n => n.parentItemID == some 1)).length + 1) ∧
    ((retryOnLock
        (fun _ => addNoteAttempt parentDb 1 "body text" none
          "2024-01-04 00:00:00" "EFGH5678" "database is busy" .atWrite)
        zoteroMaxRetries zoteroInitialDelay zoteroBackoffFactor).outcome
      = .error (.failure (.dbError ("Failed to add note: " ++ "database is busy"))) ∧
    (retryOnLock
        (fun _ => addNoteAttempt parentDb 1 "body text" none
          "2024-01-04 00:00:00" "EFGH5678" "database is busy" .atWrite)
        zoteroMaxRetries zoteroInitialDelay zoteroBackoffFactor).calls = 1 ∧
    (retryOnLock
        (fun _ => addNoteAttempt parentDb 1 "body text" none
          "2024-01-04 00:00:00" "EFGH5678" "database is busy" .atWrite)
        zoteroMaxRetries zoteroInitialDelay zoteroBackoffFactor).delays = []) :=
  ⟨addNote_read_lock_release_single_note.1 parentDb 1 "body text" (some "My Title")
    "2024-01-03 00:00:00" "ABCD1234" "database is locked" 2 noteAddedDbTitled 2
    (by decide) (by decide) rfl,
   addNote_read_lock_release_single_note.2 parentDb 1 "body text" none
    "2024-01-04 00:00:00" "EFGH5678" "database is busy"
    ⟨1, 2, 1, "PKEY", "2024-01-01 00:00:00", "2024-01-02 00:00:00"⟩ (by decide)⟩

/-- C2 counterexample: `add_note` is one of the operations the claim covers,
and here its underlying engine reports a busy condition on the attempt — at
the `INSERT`/`commit` stage of the write.  The claim demands a wait of
`0.1 * 2 ^ 0` and a retry (and `DatabaseLocked` if the condition persists);
the code performs exactly 1 attempt with no delay and propagates a generic
`sqlite3.Error` — the decorator never sees an `OperationalError`, so the
lock/busy condition is neither retried nor ever converted to
`DatabaseLocked`. -/
theorem db_write_lock_wrapped_not_retried_counterexample :
    (retryOnLock
        (fun _ => addNoteAttempt parentDb 1 "note body" none
          "2024-01-05 00:00:00" "IJKL9012" "database is busy" .atWrite)
        zoteroMaxRetries zoteroInitialDelay zoteroBackoffFactor).outcome
      = .error (.failure (.dbError "Failed to add note: database is busy")) ∧
    (retryOnLock
        (fun _ => addNoteAttempt parentDb 1 "note body" none
          "2024-01-05 00:00:00" "IJKL9012" "database is busy" .atWrite)
        zoteroMaxRetries zoteroInitialDelay zoteroBackoffFactor).calls = 1 ∧
    (retryOnLock
        (fun _ => addNoteAttempt parentDb 1 "note body" none
          "2024-01-05 00:00:00" "IJKL9012" "database is busy" .atWrite)
        zoteroMaxRetries zoteroInitialDelay zoteroBackoffFactor).delays = [] ∧
    isLockMessage "database is busy" = true := by
  refine ⟨rfl, rfl, rfl, by decide⟩

/-! ### Read queries: `get_item`, `list_items`, `search_items`

The filesystem probed by the attachment-resolution helpers is an explicit
parameter.  The SQL condition `column LIKE '%<query>%'` (with the default
case-insensitive ASCII collation of SQLite `LIKE`) is modelled as
case-folded substring containment; queries containing the SQL wildcard
metacharacters `%` or `_` would add wildcard behaviour that the claims do
not exercise. -/

/-- `value LIKE '%query%'`, ASCII-case-insensitively. -/
def likeContains (query value : String) : Bool :=
  containsCL (query.toList.map Char.toLower) (value.toList.map Char.toLower)

/-- The same on a nullable column: SQL `NULL LIKE pattern` is not true. -/
def likeContainsOpt (query : String) : Option String → Bool
  | none => false
  | some v => likeContains query v

/-- The filesystem as seen by `_get_pdf_path` / `_get_all_attachments`:
`Path.exists` on files and directories, and the sorted `glob` listings of a
storage subdirectory (`*.pdf` and `*`). -/
structure FsModel where
  pathExists : String → Bool
  dirExists : String → Bool
  pdfFiles : String → List String
  allFiles : String → List String

/-- Python truthiness of a nullable path column (`if row['path']:`). -/
def pathTruthy : Option String → Bool
  | some p => !(p == "")
  | none => false

/-- `self.storage_path / key`. -/
def storageDir (storagePath key : String) : String :=
  storagePath ++ "/" ++ key

/-- `ZoteroDatabase._get_pdf_path` (database.py lines 361-391): first
attachment row of the item with content type `application/pdf` (joined
against `items` for its key); prefer its recorded path when that file
exists, otherwise the first `*.pdf` inside the per-item storage directory;
`none` when nothing resolves. -/
def getPdfPath (db : ZDb) (fs : FsModel) (storagePath : String) (itemId : Nat) :
    Option String :=
  let rows := (db.itemAttachments.filter
      (fun ia => ia.parentItemID == some itemId
        && ia.contentType == some "application/pdf")).flatMap
    (fun ia => (db.items.filter (fun i => i.itemID == ia.itemID)).map
      (fun i => (ia.path, i.key)))
  match rows.head? with
  | none => none
  | some (path, key) =>
      match (if pathTruthy path && fs.pathExists (path.getD "") then path else none) with
      | some p => some p
      | none =>
          if fs.dirExists (storageDir storagePath key) then
            (fs.pdfFiles (storageDir storagePath key)).head?
          else none

/-- One entry of the `attachments` list built by `_get_all_attachments`. -/
structure AttachmentInfo where
  itemId : Nat
  path : String
  contentType : Option String
  key : String
deriving DecidableEq

/-- `ZoteroDatabase._get_all_attachments` (database.py lines 393-434): every
non-deleted attachment row of the item, resolved to an on-disk file (the
recorded path when it exists, else the first file of the storage directory);
rows with no resolvable file are dropped. -/
def getAllAttachments (db : ZDb) (fs : FsModel) (storagePath : String)
    (itemId : Nat) : List AttachmentInfo :=
  ((db.itemAttachments.filter (fun ia => ia.parentItemID == some itemId)).flatMap
    (fun ia =>
      (db.items.filter (fun i => i.itemID == ia.itemID && !(isDeleted db i.itemID))).map
        (fun i => (ia, i.key)))).filterMap
    (fun r =>
      (match (if pathTruthy r.1.path && fs.pathExists (r.1.path.getD "")
              then r.1.path else none) with
       | some p => some p
       | none =>
           if fs.dirExists (storageDir storagePath r.2) then
             (fs.allFiles (storageDir storagePath r.2)).head?
           else none).map
        (fun p => ⟨r.1.itemID, p, r.1.contentType, r.2⟩))

/-- Python dict assignment `m[k] = v`: overwrite in place or append. -/
def dictInsert (m : List (String × String)) (k v : String) :
    List (String × String) :=
  if m.any (fun p => p.1 == k) then
    m.map (fun p => if p.1 == k then (k, v) else p)
  else m ++ [(k, v)]

/-- The `metadata[fieldName] = value` loop of `_get_item_metadata`
(database.py lines 316-326). -/
def fieldsOf (db : ZDb) (itemId : Nat) : List (String × String) :=
  (db.itemData.filter (fun d => d.itemID == itemId)).foldl
    (fun m d => dictInsert m d.fieldName d.value) []

/-- Python rendering of a nullable column inside an f-string
(`None` prints as `"None"`). -/
def pyShow : Option String → String
  | some s => s
  | none => "None"

/-- `f"{row['firstName']} {row['lastName']}".strip()`. -/
def authorName (c : CreatorRow) : String :=
  pyStrip (pyShow c.firstName ++ " " ++ pyShow c.lastName)

/-- Ascending insertion sort on a `Nat` key (`ORDER BY ic.orderIndex`). -/
def insertAscByNat {α : Type} (key : α → Nat) (x : α) : List α → List α
  | [] => [x]
  | y :: ys => if key x < key y then x :: y :: ys else y :: insertAscByNat key x ys

def sortAscByNat {α : Type} (key : α → Nat) : List α → List α
  | [] => []
  | x :: xs => insertAscByNat key x (sortAscByNat key xs)

/-- The `metadata['authors']` entry of `_get_item_metadata` (database.py
lines 329-345): creators of the item in `orderIndex` order, rendered and
stripped, empty names dropped, joined with `", "`; absent when no name
survives. -/
def authorsOf (db : ZDb) (itemId : Nat) : Option String :=
  let names := ((sortAscByNat (·.orderIndex)
      (db.creators.filter (fun c => c.itemID == itemId))).map authorName).filter
    (fun n => !(n == ""))
  if names.isEmpty then none else some (String.intercalate ", " names)

/-- The `metadata['tags']` entry (database.py lines 348-357); the empty list
stands for the key being absent. -/
def tagsOf (db : ZDb) (itemId : Nat) : List String :=
  (db.itemTags.filter (fun t => t.itemID == itemId)).map (·.name)

/-- The dictionary returned by `get_item`.  Python merges the metadata
fields, `authors` and `tags` into the same dict as the base columns; they
are kept as separate components here (no Zotero field is named `authors` or
`tags`, so no collision arises). -/
structure ItemInfo where
  itemID : Nat
  key : String
  dateAdded : String
  dateModified : String
  fields : List (String × String)
  authors : Option String
  tags : List String
  pdfPath : Option String
deriving DecidableEq

/-- `ZoteroDatabase.get_item` (database.py lines 282-312): the non-deleted
`items` row of the id, enriched with metadata, authors, tags and the
resolved PDF path; `none` when the id does not exist or is soft-deleted. -/
def getItem (db : ZDb) (fs : FsModel) (storagePath : String) (itemId : Nat) :
    Option ItemInfo :=
  match findItem db itemId with
  | none => none
  | some row =>
      some ⟨row.itemID, row.key, row.dateAdded, row.dateModified,
            fieldsOf db itemId, authorsOf db itemId, tagsOf db itemId,
            getPdfPath db fs storagePath itemId⟩

/-- `SELECT DISTINCT` keeping first occurrences; `seen` are the values
already emitted. -/
def dedupBy {α : Type} [DecidableEq α] (seen : List α) : List α → List α
  | [] => []
  | x :: xs => if x ∈ seen then dedupBy seen xs else x :: dedupBy (x :: seen) xs

/-- The match condition of `search_items` (database.py lines 564-578): the
item survives the `WHERE` clause iff some of its metadata values, or some of
its creators' first or last names, contains the wildcard-wrapped query —
the `LEFT JOIN` runs over *all* `itemData` values, not only the title. -/
def searchMatches (db : ZDb) (query : String) (i : ItemRow) : Bool :=
  db.itemData.any (fun d => d.itemID == i.itemID && likeContains query d.value)
    || db.creators.any (fun c => c.itemID == i.itemID
        && (likeContainsOpt query c.firstName || likeContainsOpt query c.lastName))

/-- `ZoteroDatabase.search_items` (database.py lines 549-582): distinct ids
of non-deleted matching items, truncated to `limit`, hydrated through
`get_item` (ids whose hydration returns nothing are dropped). -/
def searchItems (db : ZDb) (fs : FsModel) (storagePath : String)
    (query : String) (limit : Nat) : List ItemInfo :=
  let ids := dedupBy []
    ((db.items.filter
        (fun i => !(isDeleted db i.itemID) && searchMatches db query i)).map
      (·.itemID))
  (ids.take limit).filterMap (fun i => getItem db fs storagePath i)

/-- The five columns projected by the `list_items` base query. -/
structure ListRow where
  itemID : Nat
  key : String
  title : String
  dateAdded : String
  dateModified : String
deriving DecidableEq

/-- `JOIN itemTypes it ON i.itemTypeID = it.itemTypeID`, then
`it.typeName`. -/
def itemTypeName (db : ZDb) (tid : Nat) : Option String :=
  (db.itemTypes.find? (fun p => p.1 == tid)).map (·.2)

/-- `i.itemID IN (SELECT itemID FROM itemAttachments UNION SELECT itemID
FROM itemNotes WHERE parentItemID IS NOT NULL)`. -/
def isNonTopLevel (db : ZDb) (i : Nat) : Bool :=
  db.itemAttachments.any (fun ia => ia.itemID == i)
    || db.itemNotes.any (fun n => n.itemID == i && n.parentItemID.isSome)

/-- The `WHERE` conditions of `list_items` other than the title join
(database.py lines 228-261): not soft-deleted, item type joined and not
`attachment`/`note`, not a child attachment or child note, member of the
named collection when one is given (Python skips the filter for a falsy
argument, hence the empty-string escape), and carrying every requested
tag. -/
def listBaseCond (db : ZDb) (collection : Option String) (tags : List String)
    (i : ItemRow) : Bool :=
  !(isDeleted db i.itemID)
    && (match itemTypeName db i.itemTypeID with
        | some tn => !(tn == "attachment") && !(tn == "note")
        | none => false)
    && !(isNonTopLevel db i.itemID)
    && (match collection with
        | none => true
        | some c => c == "" || db.collectionItems.any
            (fun ci => ci.itemID == i.itemID && ci.collectionName == c))
    && tags.all (fun t => db.itemTags.any
        (fun it => it.itemID == i.itemID && it.name == t))

/-- One element of the `list_items` result: the projected row plus the
enrichment added in the Python loop (database.py lines 269-278). -/
structure ListedItem where
  itemID : Nat
  key : String
  title : String
  dateAdded : String
  dateModified : String
  fields : List (String × String)
  authors : Option String
  tags : List String
  pdfPath : Option String
  attachments : List AttachmentInfo
deriving DecidableEq

/-- `ZoteroDatabase.list_items` (database.py lines 197-280).  The base query
left-joins `itemData` but filters on `f.fieldName = 'title'`, so the join is
effectively inner: an item contributes one row per `title` itemData entry
and an item with none contributes no row.  `SELECT DISTINCT` over the five
projected columns, `ORDER BY i.dateModified DESC`, `LIMIT`, then per-row
enrichment. -/
def listItems (db : ZDb) (fs : FsModel) (storagePath : String)
    (collection : Option String) (tags : List String) (limit : Nat) :
    List ListedItem :=
  let rows : List ListRow :=
    (db.items.filter (listBaseCond db collection tags)).flatMap
      (fun i => (db.itemData.filter
          (fun d => d.itemID == i.itemID && d.fieldName == "title")).map
        (fun d => ⟨i.itemID, i.key, d.value, i.dateAdded, i.dateModified⟩))
  ((sortDescBy (·.dateModified) (dedupBy [] rows)).take limit).map
    (fun r =>
      ⟨r.itemID, r.key, r.title, r.dateAdded, r.dateModified,
       fieldsOf db r.itemID, authorsOf db r.itemID, tagsOf db r.itemID,
       getPdfPath db fs storagePath r.itemID,
       getAllAttachments db fs storagePath r.itemID⟩)

theorem mem_of_mem_dedupBy {α : Type} [DecidableEq α] :
    ∀ (seen l : List α) (a : α), a ∈ dedupBy seen l → a ∈ l := by
  intro seen l
  induction l generalizing seen with
  | nil => intro a ha; simp [dedupBy] at ha
  | cons x xs ih =>
      intro a ha
      by_cases hx : x ∈ seen
      · simp only [dedupBy, if_pos hx] at ha
        exact List.mem_cons_of_mem _ (ih seen a ha)
      · simp only [dedupBy, if_neg hx] at ha
        rcases List.mem_cons.mp ha with h | h
        · exact h ▸ List.mem_cons_self _ _
        · exact List.mem_cons_of_mem _ (ih (x :: seen) a h)

theorem dedupBy_nodup {α : Type} [DecidableEq α] :
    ∀ (seen l : List α), (dedupBy seen l).Nodup ∧ ∀ a ∈ dedupBy seen l, a ∉ seen := by
  intro seen l
  induction l generalizing seen with
  | nil => simp [dedupBy]
  | cons x xs ih =>
      by_cases hx : x ∈ seen
      · simpa only [dedupBy, if_pos hx] using ih seen
      · simp only [dedupBy, if_neg hx]
        obtain ⟨hnd, hni⟩ := ih (x :: seen)
        refine ⟨List.nodup_cons.mpr ⟨fun hmem => (hni x hmem) (List.mem_cons_self _ _),
          hnd⟩, ?_⟩
        intro a ha
        rcases List.mem_cons.mp ha with h | h
        · exact h ▸ hx
        · exact fun hseen => (hni a h) (List.mem_cons_of_mem _ hseen)

/-- `get_item` only ever returns the record with the requested id. -/
theorem getItem_itemID {db : ZDb} {fs : FsModel} {sp : String} {id0 : Nat}
    {info : ItemInfo} (h : getItem db fs sp id0 = some info) : info.itemID = id0 := by
  unfold getItem at h
  cases hf : findItem db id0 with
  | none => rw [hf] at h; simp at h
  | some row =>
      rw [hf] at h
      have hrow : row.itemID = id0 := by
        unfold findItem at hf
        by_cases hd : isDeleted db id0
        · simp [hd] at hf
        · simp only [hd, Bool.false_eq_true, if_false] at hf
          simpa using List.find?_some hf
      have hinfo := Option.some.inj h
      rw [← hinfo]
      exact hrow

/-- The ids of the hydrated search results are the hydratable ids, in
order. -/
theorem map_itemID_filterMap_getItem (db : ZDb) (fs : FsModel) (sp : String) :
    ∀ ids : List Nat,
      ((ids.filterMap (fun i => getItem db fs sp i)).map (·.itemID))
        = ids.filter (fun i => (getItem db fs sp i).isSome) := by
  intro ids
  induction ids with
  | nil => rfl
  | cons x xs ih =>
      cases hx : getItem db fs sp x with
      | none => simp [List.filterMap_cons, hx, List.filter_cons, ih]
      | some info =>
          simp [List.filterMap_cons, hx, List.filter_cons, ih, getItem_itemID hx]

/-! ### Claim C8 -/

/-- Store with one item whose title does not contain "machine" but whose
abstract does. -/
def searchDb : ZDb :=
  { items := [⟨1, 2, 1, "K1", "2024-01-01", "2024-01-01"⟩],
    itemTypes := [(2, "journalArticle")],
    itemData := [⟨1, "title", "Quantum Entanglement"⟩,
                 ⟨1, "abstractNote", "A survey of machine learning methods"⟩],
    creators := [], itemNotes := [], itemAttachments := [], itemTags := [],
    collectionItems := [], deletedItems := [] }

/-- A filesystem on which nothing exists. -/
def fsEmpty : FsModel := ⟨fun _ => false, fun _ => false, fun _ => [], fun _ => []⟩

/-- C8 counterexample: the query "machine" is not a substring of the only
item's title ("Quantum Entanglement") and the store has no creators at all,
yet `search_items` returns the item — it was matched through the
`abstractNote` metadata value.  So the match is not restricted to title and
creator names. -/
theorem search_fields_counterexample :
    ((searchItems searchDb fsEmpty "/s" "machine" 50).map (·.itemID) = [1]) ∧
    likeContains "machine" "Quantum Entanglement" = false ∧
    searchDb.creators = [] ∧
    likeContains "machine" "A survey of machine learning methods" = true := by
  refine ⟨?_, by decide, rfl, by decide⟩
  decide

/-- C8 (amended): `search_items` matches records by case-insensitive,
wildcard-wrapped substring match across creator first and last names and
*every* stored metadata field value — title, abstract, and all others —
excludes soft-deleted records, deduplicates by record identifier (the
returned identifiers are pairwise distinct), and hydrates each result via
`get_item`. -/
theorem search_matching_dedup_hydration :
    (∀ (db : ZDb) (fs : FsModel) (storagePath query : String) (limit : Nat)
        (info : ItemInfo),
      info ∈ searchItems db fs storagePath query limit →
      getItem db fs storagePath info.itemID = some info ∧
      isDeleted db info.itemID = false ∧
      ((∃ d ∈ db.itemData, d.itemID = info.itemID ∧
          likeContains query d.value = true) ∨
       (∃ c ∈ db.creators, c.itemID = info.itemID ∧
          (likeContainsOpt query c.firstName = true ∨
           likeContainsOpt query c.lastName = true)))) ∧
    (∀ (db : ZDb) (fs : FsModel) (storagePath query : String) (limit : Nat),
      ((searchItems db fs storagePath query limit).map (·.itemID)).Nodup) := by
  constructor
  · intro db fs sp q lim info hmem
    simp only [searchItems] at hmem
    obtain ⟨id0, hid, hget⟩ := List.mem_filterMap.mp hmem
    have hiid : info.itemID = id0 := getItem_itemID hget
    have hid2 : id0 ∈ dedupBy []
        ((db.items.filter
          (fun i => !(isDeleted db i.itemID) && searchMatches db q i)).map
            (·.itemID)) :=
      List.take_subset _ _ hid
    obtain ⟨i, hi, hieq⟩ := List.mem_map.mp (mem_of_mem_dedupBy _ _ _ hid2)
    have hcond := (List.mem_filter.mp hi).2
    rw [Bool.and_eq_true] at hcond
    refine ⟨hiid ▸ hget, ?_, ?_⟩
    · have := hcond.1
      rw [Bool.not_eq_true'] at this
      rw [hiid, ← hieq]
      exact this
    · have hm := hcond.2
      unfold searchMatches at hm
      rw [Bool.or_eq_true] at hm
      rcases hm with hm | hm
      · left
        obtain ⟨d, hd, hdp⟩ := List.any_eq_true.mp hm
        rw [Bool.and_eq_true, beq_iff_eq] at hdp
        exact ⟨d, hd, by rw [hiid, ← hieq]; exact hdp.1, hdp.2⟩
      · right
        obtain ⟨c, hc, hcp⟩ := List.any_eq_true.mp hm
        rw [Bool.and_eq_true, beq_iff_eq, Bool.or_eq_true] at hcp
        exact ⟨c, hc, by rw [hiid, ← hieq]; exact hcp.1, hcp.2⟩
  · intro db fs sp q lim
    simp only [searchItems]
    rw [map_itemID_filterMap_getItem]
    apply List.Nodup.filter
    exact List.Nodup.sublist (List.take_sublist _ _) (dedupBy_nodup [] _).1

/-- The hydrated result of the item of `searchDb`. -/
def searchHit : ItemInfo :=
  ⟨1, "K1", "2024-01-01", "2024-01-01",
   [("title", "Quantum Entanglement"),
    ("abstractNote", "A survey of machine learning methods")],
   none, [], none⟩

theorem search_matching_dedup_hydration_witness :
    (getItem searchDb fsEmpty "/s" searchHit.itemID = some searchHit ∧
      isDeleted searchDb searchHit.itemID = false ∧
      ((∃ d ∈ searchDb.itemData, d.itemID = searchHit.itemID ∧
          likeContains "machine" d.value = true) ∨
       (∃ c ∈ searchDb.creators, c.itemID = searchHit.itemID ∧
          (likeContainsOpt "machine" c.firstName = true ∨
           likeContainsOpt "machine" c.lastName = true)))) ∧
    ((searchItems searchDb fsEmpty "/s" "machine" 50).map (·.itemID)).Nodup :=
  ⟨search_matching_dedup_hydration.1 searchDb fsEmpty "/s" "machine" 50 searchHit
      (by decide),
   search_matching_dedup_hydration.2 searchDb fsEmpty "/s" "machine" 50⟩

/-! ### Claim C10 -/

/-- C10: every item returned by `list_items` has a `title` metadata entry;
conversely a record that passes every other filter of the base query (not
deleted, top-level, non-attachment non-note type, collection and tag
filters) is still excluded whenever it has no `title` itemData entry — the
title condition is a mandatory filter, not an optional enrichment. -/
theorem listItems_requires_title :
    (∀ (db : ZDb) (fs : FsModel) (storagePath : String) (collection : Option String)
        (tags : List String) (limit : Nat) (it : ListedItem),
      it ∈ listItems db fs storagePath collection tags limit →
      ∃ d ∈ db.itemData, d.itemID = it.itemID ∧ d.fieldName = "title") ∧
    (∀ (db : ZDb) (fs : FsModel) (storagePath : String) (collection : Option String)
        (tags : List String) (limit : Nat) (r : ItemRow),
      r ∈ db.items →
      listBaseCond db collection tags r = true →
      (∀ d ∈ db.itemData, ¬(d.itemID = r.itemID ∧ d.fieldName = "title")) →
      r.itemID ∉ (listItems db fs storagePath collection tags limit).map (·.itemID)) := by
  have h1 : ∀ (db : ZDb) (fs : FsModel) (storagePath : String)
      (collection : Option String) (tags : List String) (limit : Nat)
      (it : ListedItem),
      it ∈ listItems db fs storagePath collection tags limit →
      ∃ d ∈ db.itemData, d.itemID = it.itemID ∧ d.fieldName = "title" := by
    intro db fs sp coll tags lim it hit
    simp only [listItems] at hit
    obtain ⟨r, hr, hrit⟩ := List.mem_map.mp hit
    have hr2 := List.take_subset _ _ hr
    rw [mem_sortDescBy] at hr2
    obtain ⟨i, hi, hmap⟩ := List.mem_flatMap.mp (mem_of_mem_dedupBy _ _ _ hr2)
    obtain ⟨d, hd, hde⟩ := List.mem_map.mp hmap
    have hdc := (List.mem_filter.mp hd).2
    rw [Bool.and_eq_true, beq_iff_eq, beq_iff_eq] at hdc
    refine ⟨d, (List.mem_filter.mp hd).1, ?_, hdc.2⟩
    have hit_id : it.itemID = r.itemID := by rw [← hrit]
    have hr_id : r.itemID = i.itemID := by rw [← hde]
    rw [hit_id, hr_id, hdc.1]
  refine ⟨h1, ?_⟩
  intro db fs sp coll tags lim r hr hbase hnotitle hmem
  obtain ⟨it, hit, hids⟩ := List.mem_map.mp hmem
  obtain ⟨d, hd, hdi, hdf⟩ := h1 db fs sp coll tags lim it hit
  exact hnotitle d hd ⟨by rw [hdi, hids], hdf⟩

/-- Store with one well-formed top-level item that has an abstract but no
title entry. -/
def titlelessDb : ZDb :=
  { items := [⟨1, 2, 1, "K1", "2024-01-01", "2024-01-02"⟩],
    itemTypes := [(2, "journalArticle")],
    itemData := [⟨1, "abstractNote", "No title here"⟩],
    creators := [], itemNotes := [], itemAttachments := [], itemTags := [],
    collectionItems := [], deletedItems := [] }

theorem listItems_requires_title_witness :
    1 ∉ (listItems titlelessDb fsEmpty "/s" none [] 100).map (·.itemID) :=
  listItems_requires_title.2 titlelessDb fsEmpty "/s" none [] 100
    ⟨1, 2, 1, "K1", "2024-01-01", "2024-01-02"⟩ (by decide) (by decide)
    (by decide)

end Papermind
